import Mathlib

/-!
Shallow embedding of the canvasbg library (haandev/canvasbg) for checking its
natural-language specification.

Sources embedded:
* src/src/canvas-bg.ts   — class CanvasBG: layer registry, bindContext, use, animate
* src/src/samples/star-field.ts — StarField: particle pool, drift, regeneration
* src/src/samples/constellation.ts — Constellation: per-frame draw gate

Modelling conventions:
* JS numbers are modelled as exact rationals (ℚ); Math.random() samples are
  passed in explicitly as stream arguments.
* A JS object used as a string-keyed map is modelled as an insertion-ordered
  association list; property assignment updates an existing key in place and
  appends a fresh key at the end, matching JS enumeration order.
* Object identity between CanvasBG instances is modelled by numeric ids; the
  shared mutable registry objects live in a heap (World.regs) so that the
  aliasing produced by `this._layers = host.layers` is observable.
* Absent/undefined optional strings are modelled by "" (falsy in JS, exactly
  the values on which `nextPossibleAlias` bails out), absent numbers by none.
-/

/-- One registry slot, from src/types: Layer = { config: Omit<LayerConfig, "as">;
instance: ChildCanvasBG }.  The instance is identified by its numeric id. -/
structure LayerEntry where
  instId : Nat
  zIndex : Int
deriving DecidableEq, Repr

/-- A JS object keyed by alias, insertion ordered (canvas-bg.ts `_layers`). -/
abbrev Registry := List (String × LayerEntry)

/-- JS property read `obj[k]`. -/
def lookupKey (r : Registry) (k : String) : Option LayerEntry :=
  (r.find? (fun p => p.1 == k)).map (fun p => p.2)

/-- JS property write `obj[k] = e`: update in place if present, else append. -/
def setKey (r : Registry) (k : String) (e : LayerEntry) : Registry :=
  if (r.find? (fun p => p.1 == k)).isSome then
    r.map (fun p => if p.1 == k then (k, e) else p)
  else
    r ++ [(k, e)]

/-- JS `delete obj[k]`. -/
def delKey (r : Registry) (k : String) : Registry :=
  r.filter (fun p => p.1 != k)

/-- The per-instance fields of a CanvasBG object that the registry logic
touches: its class name (lowercased, as `this.constructor.name.toLowerCase()`
produces it), its declared `defaultAlias` (canvas-bg.ts line 15, "" unless a
subclass overrides it), which registry object its `_layers` field points at,
and its private `zIndexCounter` (line 17, starts at 0). -/
structure Inst where
  className : String
  defaultAlias : String
  regId : Nat
  zIndexCounter : Int
deriving DecidableEq, Repr

/-- The heap: all constructed instances and all registry objects.  Registries
are separate heap cells because `bindContext` aliases them across instances. -/
structure World where
  insts : List (Nat × Inst)
  regs : List (Nat × Registry)
deriving DecidableEq, Repr

def World.getInst (w : World) (i : Nat) : Option Inst :=
  (w.insts.find? (fun p => p.1 == i)).map (fun p => p.2)

def World.setInst (w : World) (i : Nat) (x : Inst) : World :=
  { w with insts := w.insts.map (fun p => if p.1 == i then (i, x) else p) }

def World.getReg (w : World) (i : Nat) : Registry :=
  ((w.regs.find? (fun p => p.1 == i)).map (fun p => p.2)).getD []

def World.setReg (w : World) (i : Nat) (r : Registry) : World :=
  { w with regs := w.regs.map (fun p => if p.1 == i then (i, r) else p) }

/-- Constructing a CanvasBG instance (canvas-bg.ts lines 21-23): its private
`_layers` starts as a fresh object `{ __main: { instance: this, config:
{ as: "__main", zIndex: 0 } } }` and its zIndexCounter at 0.  We allocate the
fresh registry cell under the instance's own id.  (Passing a canvas element or
a selector to the constructor only sets `this.canvas`/`this.ctx` and never
touches the registry, so roots and detached children start identically here.) -/
def World.newInst (w : World) (id : Nat) (className defaultAlias : String) : World :=
  { insts := w.insts ++
      [(id, { className := className, defaultAlias := defaultAlias,
              regId := id, zIndexCounter := 0 })],
    regs := w.regs ++ [(id, [("__main", { instId := id, zIndex := 0 })])] }

/-- The n-th alias candidate tried by `nextPossibleAlias` (canvas-bg.ts 90-98):
the loop starts with `newKey = key`, `i = 1` and on each collision sets
`newKey = key + (++i)`, i.e. the candidates are key, key2, key3, … . -/
def aliasCandidate (key : String) (n : Nat) : String :=
  if n = 0 then key else key ++ toString (n + 1)

/-- canvas-bg.ts lines 90-98.  `if (!key) return;` makes the function return
undefined on a falsy key (undefined or "").  Otherwise it returns the first
candidate not present in the registry it is given.  The source loop is
unbounded; a registry with n keys can collide with at most n of the n+1
distinct candidates tried here, so the fallback arm is unreachable. -/
def nextPossibleAlias (reg : Registry) (key : String) : Option String :=
  if key = "" then none
  else
    match (List.range (reg.length + 1)).find?
        (fun n => (lookupKey reg (aliasCandidate key n)).isNone) with
    | some n => some (aliasCandidate key n)
    | none => some (aliasCandidate key (reg.length + 1))

/-- canvas-bg.ts lines 105-127: the `host instanceof CanvasBG` branch of
`bindContext`, run with `this` = the child instance.

Step by step against the source:
* line 106: `if (this.layers.__main.instance !== this) throw` — the
  already-attached check reads the `__main` slot of the CHILD's current
  registry (a missing `__main` would be a JS TypeError; modelled as an error).
* lines 111-117: alias selection.  Each `nextPossibleAlias` call consults
  `this.layers`, the CHILD's registry, not the host's.
* line 120: `delete this._layers.main` — deletes the key "main" (not
  "__main") from the child's registry object, in place.
* lines 122-126: `Object.assign(host.layers, {...host.layers, [as]: entry,
  ...this.layers})` — net effect on the host registry object: write the alias
  entry, then write every entry of the child's registry (including its
  `__main`), in order, each write updating in place or appending.
* line 127: `this._layers = host.layers` — the child's registry pointer is
  repointed at the host's registry cell.

The remaining statements of `bindContext` (`this.canvas = host.canvas`,
`this._size = host.size`, `this.init()`, the clientWidth/resize/getContext
block) read or write only canvas, size and subclass state, never a registry,
so they are omitted from this registry-level model. -/
def bindContextParent (w : World) (childId hostId : Nat) (asOpt : String)
    (zIndex : Int) : Except String World :=
  match w.getInst childId, w.getInst hostId with
  | some child, some host =>
    let childReg := w.getReg child.regId
    match lookupKey childReg "__main" with
    | none => Except.error "TypeError: cannot read instance of undefined"
    | some mainEntry =>
      if mainEntry.instId ≠ childId then
        Except.error "CanvasBG instance can only be associated with one parent"
      else
        let className := child.className
        let asFinal :=
          match nextPossibleAlias childReg asOpt with
          | some a => a
          | none =>
            match nextPossibleAlias childReg child.defaultAlias with
            | some a => a
            | none =>
              match nextPossibleAlias childReg className with
              | some a => a
              | none => className
        let w1 := w.setReg child.regId (delKey childReg "main")
        let hostReg := w1.getReg host.regId
        let merged :=
          (w1.getReg child.regId).foldl (fun acc p => setKey acc p.1 p.2)
            (setKey hostReg asFinal { instId := childId, zIndex := zIndex })
        let w2 := w1.setReg host.regId merged
        let w3 := w2.setInst childId { child with regId := host.regId }
        Except.ok w3
  | _, _ => Except.error "instance not found"

/-- canvas-bg.ts lines 213-219:
`const zIndex = config?.zIndex || this.zIndexCounter++;` — `||` takes the
counter whenever the supplied zIndex is absent OR falsy (0), and
`zIndexCounter++` post-increments only in that case.  Then
`canvasbg.bindContext(this, { as, zIndex })`. -/
def use (w : World) (hostId childId : Nat) (asOpt : String) (zOpt : Option Int) :
    Except String World :=
  match w.getInst hostId with
  | none => Except.error "instance not found"
  | some host =>
    match zOpt with
    | some z =>
      if z = 0 then
        let w1 := w.setInst hostId { host with zIndexCounter := host.zIndexCounter + 1 }
        bindContextParent w1 childId hostId asOpt host.zIndexCounter
      else
        bindContextParent w childId hostId asOpt z
    | none =>
      let w1 := w.setInst hostId { host with zIndexCounter := host.zIndexCounter + 1 }
      bindContextParent w1 childId hostId asOpt host.zIndexCounter

/-- One observable event of a single animate pass. -/
inductive FrameCmd where
  | clear
  | draw (layerAlias : String) (instId : Nat) (zIndex : Int)
deriving DecidableEq, Repr

/-- canvas-bg.ts lines 149-155: `Object.values(this.layers).sort((a, b) =>
a.config.zIndex - b.config.zIndex).forEach(layer => layer.instance.draw?.())`
— the registry's values sorted ascending by zIndex (JS sort is stable, as is
mergeSort), each drawn once. -/
def callAnimationCallbacks (reg : Registry) : List FrameCmd :=
  (reg.mergeSort (fun a b => decide (a.2.zIndex ≤ b.2.zIndex))).map
    (fun p => FrameCmd.draw p.1 p.2.instId p.2.zIndex)

/-- canvas-bg.ts lines 195-200: one pass of `animate()`.  Throws when no 2D
context was acquired; otherwise clears the whole surface, then runs the draw
callbacks.  (The trailing `requestAnimationFrame(() => this.animate())` re-arms
the external scheduler and is outside a single pass.) -/
def animate (hasCtx : Bool) (reg : Registry) : Except String (List FrameCmd) :=
  if hasCtx = false then Except.error "Canvas context not initialized"
  else Except.ok (FrameCmd.clear :: callAnimationCallbacks reg)

/-- star-field.ts lines 4-6: `Math.random() * (max - min) + min`, with the
random sample passed in as `r`. -/
def mathRandBetween (r mn mx : ℚ) : ℚ := r * (mx - mn) + mn

/-- src/types: Particle = { coordinate: Delaunay.Point; scale: number }. -/
structure Particle where
  coordinate : ℚ × ℚ
  scale : ℚ
deriving DecidableEq, Repr

/-- The shared size record `{ width, height }` (canvas-bg.ts line 58). -/
structure Size where
  width : ℚ
  height : ℚ
deriving DecidableEq, Repr

/-- star-field.ts line 8: VelocityVector = { x, y, z }. -/
structure VelocityVector where
  x : ℚ
  y : ℚ
  z : ℚ
deriving DecidableEq, Repr

/-- star-field.ts `feedFrom` configuration values. -/
inductive FeedFrom where
  | top
  | bottom
  | left
  | right
  | anywhere
deriving DecidableEq, Repr

/-- star-field.ts lines 55-61: the particle pushed at one loop iteration of
`initializePoints` — coordinate `[Math.random() * (width + 500) - 250,
Math.random() * (height + 500) - 250]`, scale `0.2 + Math.random() * (1 - 0.2)`
(0.2 written as 1/5). -/
def initPoint (size : Size) (r1 r2 r3 : ℚ) : Particle :=
  { coordinate := (r1 * (size.width + 500) - 250, r2 * (size.height + 500) - 250),
    scale := 1/5 + r3 * (1 - 1/5) }

/-- star-field.ts lines 53-63: `initializePoints(pointCount)` pushes
`pointCount` particles onto the (initially empty) `dots` array; the i-th push
consumes the next three Math.random() samples. -/
def initializePoints (size : Size) (rands : Nat → ℚ) (pointCount : Nat) :
    List Particle :=
  (List.range pointCount).map
    (fun i => initPoint size (rands (3 * i)) (rands (3 * i + 1)) (rands (3 * i + 2)))

/-- star-field.ts line 146: `(this.config?.points as number) || 150` — the
default 150 is taken when `points` is absent OR falsy (0). -/
def starFieldPointCount (configPoints : Option Nat) : Nat :=
  match configPoints with
  | some n => if n = 0 then 150 else n
  | none => 150

/-- star-field.ts lines 141-145: `this.velocity = this.config.velocity ||
{ x: 0, y: 0, z: 0.001 }` (0.001 written as 1/1000). -/
def starFieldVelocity (configVelocity : Option VelocityVector) : VelocityVector :=
  configVelocity.getD { x := 0, y := 0, z := 1/1000 }

/-- star-field.ts line 91: `this.config.feedFrom || "anywhere"`. -/
def starFieldFeedFrom (configFeedFrom : Option FeedFrom) : FeedFrom :=
  configFeedFrom.getD FeedFrom.anywhere

/-- star-field.ts lines 140-147: the `init()` hook run at bind time — the
particle pool it leaves behind. -/
def starFieldInit (size : Size) (rands : Nat → ℚ) (configPoints : Option Nat) :
    List Particle :=
  initializePoints size rands (starFieldPointCount configPoints)

/-- star-field.ts lines 66-77: the in-place drift of one particle inside
`updateParticles` — scale is incremented first, and the updated scale feeds
both coordinate updates:
  scale += velocity.z;
  x += ((x - width / 2) * scale) / 2 * velocity.z + velocity.x * scale / 1;
  y += ((y - height / 2) * scale) / 2 * velocity.z + velocity.y * scale / 1. -/
def driftParticle (size : Size) (v : VelocityVector) (p : Particle) : Particle :=
  let scale := p.scale + v.z
  let x := p.coordinate.1 + ((p.coordinate.1 - size.width / 2) * scale) / 2 * v.z
            + v.x * scale / 1
  let y := p.coordinate.2 + ((p.coordinate.2 - size.height / 2) * scale) / 2 * v.z
            + v.y * scale / 1
  { coordinate := (x, y), scale := scale }

/-- star-field.ts lines 80-85: the out-of-bounds test applied to the drifted
particle — `x < 0 || x > width + 250 || y < 0 || y > height`. -/
def outOfBoundsCheck (size : Size) (p : Particle) : Bool :=
  decide (p.coordinate.1 < 0) || decide (p.coordinate.1 > size.width + 250) ||
  decide (p.coordinate.2 < 0) || decide (p.coordinate.2 > size.height)

/-- star-field.ts lines 90-123: `regenerateParticle` overwrites all three
fields from three fresh Math.random() samples (r1 for x, r2 for y, r3 for
scale), with ranges selected by the feedFrom direction. -/
def regenerateParticle (size : Size) (feedFrom : FeedFrom) (r1 r2 r3 : ℚ) :
    Particle :=
  match feedFrom with
  | FeedFrom.anywhere =>
    { coordinate := (mathRandBetween r1 (-250) (size.width + 250),
                     mathRandBetween r2 (-250) (size.height + 250)),
      scale := mathRandBetween r3 (1/5) 1 }
  | FeedFrom.top =>
    { coordinate := (mathRandBetween r1 (-250) (size.width + 250),
                     mathRandBetween r2 (-250) 0),
      scale := mathRandBetween r3 (1/5) 1 }
  | FeedFrom.bottom =>
    { coordinate := (mathRandBetween r1 (-250) (size.width + 250),
                     mathRandBetween r2 size.height (size.height + 250)),
      scale := mathRandBetween r3 (1/5) 1 }
  | FeedFrom.left =>
    { coordinate := (mathRandBetween r1 (-250) 0,
                     mathRandBetween r2 (-250) (size.height + 250)),
      scale := mathRandBetween r3 (1/5) 1 }
  | FeedFrom.right =>
    { coordinate := (mathRandBetween r1 size.width (size.width + 250),
                     mathRandBetween r2 (-250) (size.height + 250)),
      scale := mathRandBetween r3 (1/5) 1 }

/-- star-field.ts lines 64-89: the whole per-frame treatment of one particle in
`updateParticles` — drift in place, then regenerate exactly when the drifted
position is out of bounds.  (The forEach treats every particle independently;
r1 r2 r3 are the samples a regeneration of this particle would consume.) -/
def updateParticle (size : Size) (v : VelocityVector) (ff : FeedFrom)
    (r1 r2 r3 : ℚ) (p : Particle) : Particle :=
  let d := driftParticle size v p
  if outOfBoundsCheck size d then regenerateParticle size ff r1 r2 r3 else d

/-- One particle followed across n animation frames; frame k of the run uses
the sample triple `rands k` if it regenerates. -/
def updateFrames (size : Size) (v : VelocityVector) (ff : FeedFrom)
    (rands : Nat → ℚ × ℚ × ℚ) : Nat → Particle → Particle
  | 0, p => p
  | n + 1, p =>
    let r := rands n
    updateFrames size v ff rands n (updateParticle size v ff r.1 r.2.1 r.2.2 p)

/-- One observable event of Constellation.draw. -/
inductive ConstellationCmd where
  | mouseMarker (pos : ℚ × ℚ)
  | triangulate (pts : List (ℚ × ℚ))
deriving DecidableEq, Repr

def ConstellationCmd.isTriangulate : ConstellationCmd → Bool
  | ConstellationCmd.triangulate _ => true
  | _ => false

/-- constellation.ts lines 72-120 (same body in the unnamed variant,
Constellation.draw): after the context/dots/mousePosition guards (which cannot
fire once init ran: both fields are initialized non-null), the method always
draws the mouse marker circle, then `if (dots.length < 5) return;` — the gate
counts only the particle array — and otherwise builds
`XYs = [mousePosition, ...dots coordinates]` and hands XYs to the Delaunay
triangulation, stroking its triangles.  The triangulation itself is the
external d3-delaunay library, so the model records the invocation and the
point set passed to it. -/
def constellationDraw (mousePosition : ℚ × ℚ) (dots : List Particle) :
    List ConstellationCmd :=
  ConstellationCmd.mouseMarker mousePosition ::
    (if dots.length < 5 then []
     else [ConstellationCmd.triangulate
            (mousePosition :: dots.map (fun p => p.coordinate))])

/-! ## Scenario worlds for the registry claims -/

/-- Four constructed instances: id 0 a root CanvasBG ("root A"), ids 1 and 2
two fresh unlabeled StarField layers, id 3 a second root CanvasBG ("root B").
StarField declares no defaultAlias override, so both inherit "". -/
def cWorld : World :=
  ((((World.mk [] []).newInst 0 "canvasbg" "").newInst 1 "starfield" "").newInst 2
    "starfield" "").newInst 3 "canvasbg" ""

/-- Attach StarField 1 to root A, then attempt to attach the same instance to
root B — the run the spec says must raise AlreadyAttachedError. -/
def c1RunSilent : Except String World :=
  (use cWorld 0 1 "" none).bind (fun w => use w 3 1 "" none)

/-- Attach StarField 1 and then StarField 2 to root A, then attempt to attach
StarField 1 to root B. -/
def c1RunThrows : Except String World :=
  (use cWorld 0 1 "" none).bind (fun w =>
    (use w 0 2 "" none).bind (fun w2 => use w2 3 1 "" none))

/-- Attach the two unlabeled StarFields 1 and 2 to root A. -/
def c2Run : Except String World :=
  (use cWorld 0 1 "" none).bind (fun w => use w 0 2 "" none)

/-- Attach one unlabeled StarField to root A. -/
def c3Run : Except String World := use cWorld 0 1 "" none

/-- Attach StarField 1 with zIndex omitted, then StarField 2 with an explicit
zIndex of 0. -/
def c10Run : Except String World :=
  (use cWorld 0 1 "" none).bind (fun w => use w 0 2 "" (some 0))

/-- C1: the claim says any re-attachment of an already-attached layer to a
different root raises the already-attached error.  The code disagrees: after
`Object.assign` has spread the child's own `__main` entry over the parent's
(enabled by line 120's `delete this._layers.main`, which deletes the key
"main", not "__main"), the shared registry's `__main.instance` is the child
itself, so the guard `this.layers.__main.instance !== this` passes for the
most recently attached child and the re-attachment to root B proceeds
silently.  The second conjunct shows the guard does fire (with exactly the
claimed message) once another layer has been attached after it, confirming the
check exists but is neutralized for the latest child. -/
theorem c1_reattach_not_raised :
    c1RunSilent.isOk = true ∧
    c1RunThrows = Except.error "CanvasBG instance can only be associated with one parent" :=
  ⟨rfl, rfl⟩

/-- C2: the claim says aliases are disambiguated against the parent's registry
(starfield, starfield2, …) and never overwrite.  The code's
`nextPossibleAlias` consults `this.layers` — the child's own registry, which
holds only its `__main` — so both unlabeled StarFields compute the alias
"starfield" and the second `Object.assign` overwrites the first's entry: root
A's registry ends with no trace of StarField 1, no "starfield2" key, and even
its `__main` slot overwritten by StarField 2. -/
theorem c2_alias_collision_overwrite :
    c2Run.toOption.map (fun w => w.getReg 0) =
      some [("__main", { instId := 2, zIndex := 0 }),
            ("starfield", { instId := 2, zIndex := 1 })] :=
  rfl

/-- C3: the claim says the reserved `__main` slot always holds the root
surface itself.  After a single `use` of a fresh StarField (instance id 1) on
root A (instance id 0), the root registry's `__main` entry holds the child,
not the root: line 120 deletes the key "main" instead of "__main", so the
child's own `__main` entry survives the spread and overwrites the root's. -/
theorem c3_root_slot_hijacked :
    c3Run.toOption.map (fun w => lookupKey (w.getReg 0) "__main") =
      some (some { instId := 1, zIndex := 0 }) ∧
    c3Run.toOption.map (fun w => (lookupKey (w.getReg 0) "__main").map
        (fun e => e.instId)) ≠ some (some 0) :=
  ⟨rfl, by decide⟩

/-- C10: `config?.zIndex || this.zIndexCounter++` treats an explicit zIndex of
0 as falsy, so `use` with zIndex 0 is indistinguishable from `use` with zIndex
omitted — in every world state the two calls produce identical results, the
counter value is assigned and the counter is still post-incremented.  The
concrete conjunct: after one zIndex-omitted attachment (counter 0 → 1), a
second attachment requesting zIndex 0 lands at zIndex 1 (the counter, not the
requested 0) and the counter advances to 2. -/
theorem c10_zindex_zero_falsy :
    (∀ (w : World) (hostId childId : Nat) (asOpt : String),
        use w hostId childId asOpt (some 0) = use w hostId childId asOpt none) ∧
    c10Run.toOption.map (fun w =>
        ((lookupKey (w.getReg 0) "starfield").map (fun e => e.zIndex),
         (w.getInst 0).map (fun h => h.zIndexCounter))) =
      some (some 1, some 2) := by
  refine ⟨fun w hostId childId asOpt => ?_, rfl⟩
  unfold use
  cases w.getInst hostId with
  | none => rfl
  | some host => simp

/-! ## Constellation draw gate (C4) -/

/-- Four particles: together with the mouse position these are exactly 5
combined points. -/
def c4Dots : List Particle :=
  [{ coordinate := (1, 1), scale := 1 }, { coordinate := (2, 2), scale := 1 },
   { coordinate := (3, 3), scale := 1 }, { coordinate := (4, 4), scale := 1 }]

/-- C4 counterexample: with 4 particles the combined point set (mouse +
particles) has 5 ≥ 5 points, so the claim says the triangulation runs; but the
code's gate is `if (dots.length < 5) return;` over the particle array alone,
so the frame draws only the mouse marker and performs no triangulation. -/
theorem c4_combined_threshold_cex :
    5 ≤ 1 + c4Dots.length ∧
    (constellationDraw (0, 0) c4Dots).any ConstellationCmd.isTriangulate = false ∧
    constellationDraw (0, 0) c4Dots = [ConstellationCmd.mouseMarker (0, 0)] :=
  ⟨by decide, by decide, rfl⟩

/-- C4 amended: the threshold is on the particle count — the triangulation
runs exactly when at least 5 particles are present, i.e. when the combined
point set (mouse + particles) has at least 6 points, and it then receives the
mouse position followed by all particle positions; the mouse marker is drawn
in every frame. -/
theorem c4_particle_threshold (mouse : ℚ × ℚ) (dots : List Particle) :
    ((constellationDraw mouse dots).any ConstellationCmd.isTriangulate = true ↔
      6 ≤ 1 + dots.length) ∧
    (ConstellationCmd.triangulate (mouse :: dots.map (fun p => p.coordinate)) ∈
        constellationDraw mouse dots ↔ 6 ≤ 1 + dots.length) ∧
    ConstellationCmd.mouseMarker mouse ∈ constellationDraw mouse dots := by
  unfold constellationDraw
  by_cases h : dots.length < 5
  · simp [h, ConstellationCmd.isTriangulate]
    omega
  · simp [h, ConstellationCmd.isTriangulate]
    omega

/-! ## StarField initialization (C5) -/

/-- Lower and upper bounds of one `mathRandBetween` draw, given a sample in
[0, 1] and an ordered range. -/
theorem mathRandBetween_mem (r mn mx : ℚ) (h0 : 0 ≤ r) (h1 : r ≤ 1)
    (hm : mn ≤ mx) :
    mn ≤ mathRandBetween r mn mx ∧ mathRandBetween r mn mx ≤ mx := by
  unfold mathRandBetween
  constructor <;> nlinarith

/-- C5 counterexample: the claim quantifies over every configured pointCount
N ≥ 0, but `(this.config?.points as number) || 150` treats a configured 0 as
falsy, so a StarField configured with points = 0 initializes 150 particles,
not 0. -/
theorem c5_points_zero_cex :
    (starFieldInit { width := 800, height := 600 } (fun _ => 1/2) (some 0)).length = 150 ∧
    (starFieldInit { width := 800, height := 600 } (fun _ => 1/2) (some 0)).length ≠ 0 := by
  constructor <;>
    simp [starFieldInit, initializePoints, starFieldPointCount]

/-- C5 amended: for every configured points value N ≥ 1 the pool holds exactly
N particles, each positioned in the area extending 250 units beyond the
surface bounds on all sides and scaled within [0.2, 1]; a configured 0 falls
back to the default of 150 particles. -/
theorem c5_init_pool (N : Nat) (size : Size) (rands : Nat → ℚ)
    (hN : 1 ≤ N) (hw : 0 ≤ size.width) (hh : 0 ≤ size.height)
    (hr : ∀ i, 0 ≤ rands i ∧ rands i ≤ 1) :
    (starFieldInit size rands (some N)).length = N ∧
    (∀ p ∈ starFieldInit size rands (some N),
      -250 ≤ p.coordinate.1 ∧ p.coordinate.1 ≤ size.width + 250 ∧
      -250 ≤ p.coordinate.2 ∧ p.coordinate.2 ≤ size.height + 250 ∧
      1/5 ≤ p.scale ∧ p.scale ≤ 1) ∧
    (starFieldInit size rands (some 0)).length = 150 := by
  have hcount : starFieldPointCount (some N) = N := by
    have hne : ¬ N = 0 := by omega
    unfold starFieldPointCount
    simp [hne]
  refine ⟨?_, ?_, ?_⟩
  · simp [starFieldInit, initializePoints, hcount]
  · intro p hp
    simp only [starFieldInit, initializePoints, List.mem_map, List.mem_range] at hp
    obtain ⟨i, _, rfl⟩ := hp
    simp only [initPoint]
    obtain ⟨h10, h11⟩ := hr (3 * i)
    obtain ⟨h20, h21⟩ := hr (3 * i + 1)
    obtain ⟨h30, h31⟩ := hr (3 * i + 2)
    refine ⟨by nlinarith, by nlinarith, by nlinarith, by nlinarith,
      by nlinarith, by nlinarith⟩
  · simp [starFieldInit, initializePoints, starFieldPointCount]

/-- C5 witness: the amended statement evaluated at N = 2, an 4×6 surface and
the constant sample stream 1/2. -/
theorem c5_init_pool_witness :
    (starFieldInit { width := 4, height := 6 } (fun _ => 1/2) (some 2)).length = 2 ∧
    (∀ p ∈ starFieldInit { width := 4, height := 6 } (fun _ => 1/2) (some 2),
      -250 ≤ p.coordinate.1 ∧ p.coordinate.1 ≤ (4 : ℚ) + 250 ∧
      -250 ≤ p.coordinate.2 ∧ p.coordinate.2 ≤ (6 : ℚ) + 250 ∧
      1/5 ≤ p.scale ∧ p.scale ≤ 1) ∧
    (starFieldInit { width := 4, height := 6 } (fun _ => 1/2) (some 0)).length = 150 :=
  c5_init_pool 2 { width := 4, height := 6 } (fun _ => 1/2)
    (by norm_num) (by norm_num) (by norm_num) (fun i => by norm_num)

/-! ## StarField zero-velocity update (C6) -/

/-- With velocity (0, 0, 0) the drift arithmetic (scale += 0, x += 0, y += 0)
leaves a particle exactly as it was. -/
theorem driftParticle_zero (size : Size) (p : Particle) :
    driftParticle size { x := 0, y := 0, z := 0 } p = p := by
  obtain ⟨⟨px, py⟩, ps⟩ := p
  unfold driftParticle
  simp only [Particle.mk.injEq, Prod.mk.injEq]
  refine ⟨⟨?_, ?_⟩, ?_⟩ <;> ring

/-- The out-of-bounds test is false on a particle inside
[0, width + 250] × [0, height]. -/
theorem outOfBoundsCheck_false (size : Size) (p : Particle)
    (hx0 : 0 ≤ p.coordinate.1) (hx1 : p.coordinate.1 ≤ size.width + 250)
    (hy0 : 0 ≤ p.coordinate.2) (hy1 : p.coordinate.2 ≤ size.height) :
    outOfBoundsCheck size p = false := by
  unfold outOfBoundsCheck
  simp only [Bool.or_eq_false_iff, decide_eq_false_iff_not, not_lt, gt_iff_lt]
  exact ⟨⟨⟨hx0, hx1⟩, hy0⟩, hy1⟩

/-- The sample stream that makes the StarField's init hook produce exactly the
particle (50, -10) with scale 1/2 on a 100×100 surface: x = 1/2·600 − 250 =
50, y = 2/5·600 − 250 = −10, scale = 1/5 + 3/8·4/5 = 1/2. -/
def c6Rands : Nat → ℚ := fun i => if i = 0 then 1/2 else if i = 1 then 2/5 else 3/8

/-- A particle the StarField's own initialization can produce (its y lies in
the extended band above the surface). -/
def c6Dot : Particle := { coordinate := (50, -10), scale := 1/2 }

/-- C6 counterexample: this StarField is configured with velocity (0, 0, 0)
and its pool holds a particle at (50, -10) straight from initialization; after
a single frame the zero-velocity update has replaced that particle (y = -10 <
0 triggers regeneration, which moves it to (50, 50) with scale 3/5), so
"scale and position are unchanged across any number of frames" fails. -/
theorem c6_zero_velocity_cex :
    starFieldInit { width := 100, height := 100 } c6Rands (some 1) = [c6Dot] ∧
    starFieldVelocity (some { x := 0, y := 0, z := 0 }) = { x := 0, y := 0, z := 0 } ∧
    updateFrames { width := 100, height := 100 } { x := 0, y := 0, z := 0 }
      FeedFrom.anywhere (fun _ => (1/2, 1/2, 1/2)) 1 c6Dot ≠ c6Dot := by
  refine ⟨?_, rfl, ?_⟩
  · have hone : starFieldInit { width := 100, height := 100 } c6Rands (some 1) =
        [initPoint { width := 100, height := 100 } (c6Rands 0) (c6Rands 1) (c6Rands 2)] :=
      rfl
    rw [hone]
    simp only [initPoint, c6Rands, c6Dot, Particle.mk.injEq, Prod.mk.injEq,
      List.cons.injEq, and_true]
    norm_num
  · have hdrift : driftParticle { width := 100, height := 100 }
        { x := 0, y := 0, z := 0 } c6Dot = c6Dot := driftParticle_zero _ _
    have hoob : outOfBoundsCheck { width := 100, height := 100 } c6Dot = true := by
      unfold outOfBoundsCheck c6Dot
      norm_num
    have hone : updateFrames { width := 100, height := 100 }
        { x := 0, y := 0, z := 0 } FeedFrom.anywhere (fun _ => (1/2, 1/2, 1/2)) 1 c6Dot =
        updateParticle { width := 100, height := 100 } { x := 0, y := 0, z := 0 }
          FeedFrom.anywhere (1/2) (1/2) (1/2) c6Dot := rfl
    have hstep : updateParticle { width := 100, height := 100 }
        { x := 0, y := 0, z := 0 } FeedFrom.anywhere (1/2) (1/2) (1/2) c6Dot =
        regenerateParticle { width := 100, height := 100 } FeedFrom.anywhere
          (1/2) (1/2) (1/2) := by
      simp only [updateParticle, hdrift, hoob]
      simp
    rw [hone, hstep]
    simp only [regenerateParticle, mathRandBetween, c6Dot, Particle.mk.injEq,
      Prod.mk.injEq]
    norm_num

/-- C6 amended: with velocity (0, 0, 0), every particle whose position lies
inside [0, width + 250] × [0, height] — the region in which the update keeps a
particle — is left unchanged, scale and position, across any number of frames;
only particles outside that region are altered (by regeneration). -/
theorem c6_zero_velocity_inbounds_fixed (size : Size) (ff : FeedFrom)
    (rands : Nat → ℚ × ℚ × ℚ) (n : Nat) (p : Particle)
    (hx0 : 0 ≤ p.coordinate.1) (hx1 : p.coordinate.1 ≤ size.width + 250)
    (hy0 : 0 ≤ p.coordinate.2) (hy1 : p.coordinate.2 ≤ size.height) :
    updateFrames size { x := 0, y := 0, z := 0 } ff rands n p = p := by
  induction n with
  | zero => rfl
  | succ n ih =>
    have hoob := outOfBoundsCheck_false size p hx0 hx1 hy0 hy1
    have hstep : updateParticle size { x := 0, y := 0, z := 0 } ff
        (rands n).1 (rands n).2.1 (rands n).2.2 p = p := by
      simp only [updateParticle, driftParticle_zero, hoob]
      simp
    show updateFrames size { x := 0, y := 0, z := 0 } ff rands n
        (updateParticle size { x := 0, y := 0, z := 0 } ff
          (rands n).1 (rands n).2.1 (rands n).2.2 p) = p
    rw [hstep]
    exact ih

/-- C6 witness: the amended statement evaluated at an in-bounds particle over
three frames. -/
theorem c6_zero_velocity_inbounds_fixed_witness :
    updateFrames { width := 100, height := 100 } { x := 0, y := 0, z := 0 }
      FeedFrom.anywhere (fun _ => (1/2, 1/2, 1/2)) 3
      { coordinate := (50, 50), scale := 1/2 } =
      { coordinate := (50, 50), scale := 1/2 } :=
  c6_zero_velocity_inbounds_fixed { width := 100, height := 100 }
    FeedFrom.anywhere (fun _ => (1/2, 1/2, 1/2)) 3
    { coordinate := (50, 50), scale := 1/2 }
    (by norm_num) (by norm_num) (by norm_num) (by norm_num)

/-! ## StarField regeneration (C7) and regeneration condition (C8) -/

/-- The particle lies in the box [xlo, xhi] × [ylo, yhi] with scale in
[1/5, 1] (0.2 = 1/5). -/
def regenWithin (p : Particle) (xlo xhi ylo yhi : ℚ) : Prop :=
  xlo ≤ p.coordinate.1 ∧ p.coordinate.1 ≤ xhi ∧
  ylo ≤ p.coordinate.2 ∧ p.coordinate.2 ≤ yhi ∧
  1/5 ≤ p.scale ∧ p.scale ≤ 1

/-- C7: regeneration respects feedFrom — "top" confines the new y to
[-250, 0], "bottom" to [height, height + 250], "left" confines x to [-250, 0],
"right" to [width, width + 250]; the axis unconstrained by the chosen edge is
always sampled from the full extended range, "anywhere" samples the full
extended box, and the new scale always lies in [0.2, 1]. -/
theorem c7_regenerate_feedfrom (size : Size) (r1 r2 r3 : ℚ)
    (hw : 0 ≤ size.width) (hh : 0 ≤ size.height)
    (h1a : 0 ≤ r1) (h1b : r1 ≤ 1) (h2a : 0 ≤ r2) (h2b : r2 ≤ 1)
    (h3a : 0 ≤ r3) (h3b : r3 ≤ 1) :
    regenWithin (regenerateParticle size FeedFrom.top r1 r2 r3)
      (-250) (size.width + 250) (-250) 0 ∧
    regenWithin (regenerateParticle size FeedFrom.bottom r1 r2 r3)
      (-250) (size.width + 250) size.height (size.height + 250) ∧
    regenWithin (regenerateParticle size FeedFrom.left r1 r2 r3)
      (-250) 0 (-250) (size.height + 250) ∧
    regenWithin (regenerateParticle size FeedFrom.right r1 r2 r3)
      size.width (size.width + 250) (-250) (size.height + 250) ∧
    regenWithin (regenerateParticle size FeedFrom.anywhere r1 r2 r3)
      (-250) (size.width + 250) (-250) (size.height + 250) := by
  have hxw := mathRandBetween_mem r1 (-250) (size.width + 250) h1a h1b (by linarith)
  have hx0 := mathRandBetween_mem r1 (-250) 0 h1a h1b (by norm_num)
  have hxr := mathRandBetween_mem r1 size.width (size.width + 250) h1a h1b (by linarith)
  have hyh := mathRandBetween_mem r2 (-250) (size.height + 250) h2a h2b (by linarith)
  have hyt := mathRandBetween_mem r2 (-250) 0 h2a h2b (by norm_num)
  have hyb := mathRandBetween_mem r2 size.height (size.height + 250) h2a h2b (by linarith)
  have hs := mathRandBetween_mem r3 (1/5) 1 h3a h3b (by norm_num)
  exact ⟨⟨hxw.1, hxw.2, hyt.1, hyt.2, hs.1, hs.2⟩,
    ⟨hxw.1, hxw.2, hyb.1, hyb.2, hs.1, hs.2⟩,
    ⟨hx0.1, hx0.2, hyh.1, hyh.2, hs.1, hs.2⟩,
    ⟨hxr.1, hxr.2, hyh.1, hyh.2, hs.1, hs.2⟩,
    ⟨hxw.1, hxw.2, hyh.1, hyh.2, hs.1, hs.2⟩⟩

/-- C7 witness: the regeneration ranges evaluated on a 4×6 surface with all
three samples 1/2. -/
theorem c7_regenerate_feedfrom_witness :
    regenWithin (regenerateParticle { width := 4, height := 6 } FeedFrom.top
      (1/2) (1/2) (1/2)) (-250) ((4 : ℚ) + 250) (-250) 0 ∧
    regenWithin (regenerateParticle { width := 4, height := 6 } FeedFrom.bottom
      (1/2) (1/2) (1/2)) (-250) ((4 : ℚ) + 250) 6 ((6 : ℚ) + 250) ∧
    regenWithin (regenerateParticle { width := 4, height := 6 } FeedFrom.left
      (1/2) (1/2) (1/2)) (-250) 0 (-250) ((6 : ℚ) + 250) ∧
    regenWithin (regenerateParticle { width := 4, height := 6 } FeedFrom.right
      (1/2) (1/2) (1/2)) 4 ((4 : ℚ) + 250) (-250) ((6 : ℚ) + 250) ∧
    regenWithin (regenerateParticle { width := 4, height := 6 } FeedFrom.anywhere
      (1/2) (1/2) (1/2)) (-250) ((4 : ℚ) + 250) (-250) ((6 : ℚ) + 250) :=
  c7_regenerate_feedfrom { width := 4, height := 6 } (1/2) (1/2) (1/2)
    (by norm_num) (by norm_num) (by norm_num) (by norm_num) (by norm_num)
    (by norm_num) (by norm_num) (by norm_num)

/-- C8: a particle is regenerated in a frame exactly when its drifted position
falls outside [0, width + 250] × [0, height] — the test is x < 0 ∨
x > width + 250 ∨ y < 0 ∨ y > height, with the left and top bounds at 0 and
only the right bound extended by 250; a particle whose drifted position lies
inside that region keeps its drifted position and scale. -/
theorem c8_regen_condition (size : Size) (v : VelocityVector) (ff : FeedFrom)
    (r1 r2 r3 : ℚ) (p : Particle) :
    (outOfBoundsCheck size (driftParticle size v p) = true ↔
      (driftParticle size v p).coordinate.1 < 0 ∨
      (driftParticle size v p).coordinate.1 > size.width + 250 ∨
      (driftParticle size v p).coordinate.2 < 0 ∨
      (driftParticle size v p).coordinate.2 > size.height) ∧
    (outOfBoundsCheck size (driftParticle size v p) = true →
      updateParticle size v ff r1 r2 r3 p = regenerateParticle size ff r1 r2 r3) ∧
    (outOfBoundsCheck size (driftParticle size v p) = false →
      updateParticle size v ff r1 r2 r3 p = driftParticle size v p) := by
  refine ⟨?_, ?_, ?_⟩
  · unfold outOfBoundsCheck
    simp only [Bool.or_eq_true, decide_eq_true_iff, gt_iff_lt, or_assoc]
  · intro h
    simp only [updateParticle, h]
    simp
  · intro h
    simp only [updateParticle, h]
    simp

/-- C8 witness: the condition and both branches evaluated at a concrete
drifted-out-of-bounds setup (100×100 surface, zero velocity, particle at
(50, -10)). -/
theorem c8_regen_condition_witness :
    (outOfBoundsCheck { width := 100, height := 100 }
        (driftParticle { width := 100, height := 100 } { x := 0, y := 0, z := 0 }
          { coordinate := (50, -10), scale := 1/2 }) = true ↔
      (driftParticle { width := 100, height := 100 } { x := 0, y := 0, z := 0 }
          { coordinate := (50, -10), scale := 1/2 }).coordinate.1 < 0 ∨
      (driftParticle { width := 100, height := 100 } { x := 0, y := 0, z := 0 }
          { coordinate := (50, -10), scale := 1/2 }).coordinate.1 > (100 : ℚ) + 250 ∨
      (driftParticle { width := 100, height := 100 } { x := 0, y := 0, z := 0 }
          { coordinate := (50, -10), scale := 1/2 }).coordinate.2 < 0 ∨
      (driftParticle { width := 100, height := 100 } { x := 0, y := 0, z := 0 }
          { coordinate := (50, -10), scale := 1/2 }).coordinate.2 > (100 : ℚ)) ∧
    (outOfBoundsCheck { width := 100, height := 100 }
        (driftParticle { width := 100, height := 100 } { x := 0, y := 0, z := 0 }
          { coordinate := (50, -10), scale := 1/2 }) = true →
      updateParticle { width := 100, height := 100 } { x := 0, y := 0, z := 0 }
        FeedFrom.anywhere (1/2) (1/2) (1/2) { coordinate := (50, -10), scale := 1/2 } =
        regenerateParticle { width := 100, height := 100 } FeedFrom.anywhere
          (1/2) (1/2) (1/2)) ∧
    (outOfBoundsCheck { width := 100, height := 100 }
        (driftParticle { width := 100, height := 100 } { x := 0, y := 0, z := 0 }
          { coordinate := (50, -10), scale := 1/2 }) = false →
      updateParticle { width := 100, height := 100 } { x := 0, y := 0, z := 0 }
        FeedFrom.anywhere (1/2) (1/2) (1/2) { coordinate := (50, -10), scale := 1/2 } =
        driftParticle { width := 100, height := 100 } { x := 0, y := 0, z := 0 }
          { coordinate := (50, -10), scale := 1/2 }) :=
  c8_regen_condition { width := 100, height := 100 } { x := 0, y := 0, z := 0 }
    FeedFrom.anywhere (1/2) (1/2) (1/2) { coordinate := (50, -10), scale := 1/2 }

/-! ## Animate pass ordering (C9) -/

/-- The zIndex carried by a frame command (0 for the clear, which never
appears among the sorted draw commands). -/
def FrameCmd.zOf : FrameCmd → Int
  | FrameCmd.clear => 0
  | FrameCmd.draw _ _ z => z

/-- A registry whose three layers were attached in the order a, b, c with
explicit zIndex values 5, 1, 3. -/
def c9ExampleReg : Registry :=
  [("a", { instId := 10, zIndex := 5 }), ("b", { instId := 11, zIndex := 1 }),
   ("c", { instId := 12, zIndex := 3 })]

/-- C9: in every animate pass the full-surface clear precedes all draws (the
command list starts with the clear), every registry entry's draw is invoked
exactly once (the draw commands are a permutation of the registry), and the
draws are in ascending zIndex order; concretely, entries attached in the order
zIndex 5, 1, 3 draw in the order 1, 3, 5. -/
theorem c9_frame_order :
    (∀ reg : Registry,
      animate true reg = Except.ok (FrameCmd.clear :: callAnimationCallbacks reg) ∧
      (callAnimationCallbacks reg).Pairwise (fun a b => a.zOf ≤ b.zOf) ∧
      (callAnimationCallbacks reg).Perm
        (reg.map (fun p => FrameCmd.draw p.1 p.2.instId p.2.zIndex))) ∧
    callAnimationCallbacks c9ExampleReg =
      [FrameCmd.draw "b" 11 1, FrameCmd.draw "c" 12 3, FrameCmd.draw "a" 10 5] := by
  refine ⟨fun reg => ⟨rfl, ?_, ?_⟩, ?_⟩
  · unfold callAnimationCallbacks
    rw [List.pairwise_map]
    have htrans : ∀ (a b c : String × LayerEntry),
        decide (a.2.zIndex ≤ b.2.zIndex) = true →
        decide (b.2.zIndex ≤ c.2.zIndex) = true →
        decide (a.2.zIndex ≤ c.2.zIndex) = true := by
      intro a b c hab hbc
      simp only [decide_eq_true_iff] at hab hbc ⊢
      omega
    have htotal : ∀ (a b : String × LayerEntry),
        (decide (a.2.zIndex ≤ b.2.zIndex) || decide (b.2.zIndex ≤ a.2.zIndex)) = true := by
      intro a b
      simp only [Bool.or_eq_true, decide_eq_true_iff]
      omega
    have hs := List.sorted_mergeSort htrans htotal reg
    exact hs.imp (fun h => of_decide_eq_true h)
  · unfold callAnimationCallbacks
    exact (List.mergeSort_perm reg _).map _
  · unfold callAnimationCallbacks c9ExampleReg
    simp [List.mergeSort]
